import Mathlib

/-
Verification development for the order-lifecycle reconciliation engine of
`ibapi_wrapper/ibbroker.py` (class `IBBroker`).

Embedding conventions:
* Python dicts are modelled as association lists with unique keys; `lookupA`,
  `setA`, `removeA`, `popA` model `d[k]`, `d[k] = v`, `del d[k]` / `dict.pop`.
* Python floats are modelled as exact rationals (`ℚ`).
* The order-record transition methods (`accept`, `cancel`, `expire`, `reject`,
  `partial`, `completed`, `execute`, `alive`) and `Position.update` live in the
  external `backtrader` package, not in this repository's sources; they are
  modelled from the spec (sections 3, 4.1, 4.4 and the glossary).
* Exceptions inside `push_commissionreport`'s `try` block are modelled by an
  `Except` value that carries the broker state as mutated up to the raise
  point; the handler catches it and keeps that state, matching CPython
  semantics where `dict.pop` / `defaultdict.__getitem__` mutations performed
  before the raise are not rolled back.
-/

namespace IB

/-- Python dict lookup `d.get(k)` over an association list. -/
def lookupA {α β : Type} [DecidableEq α] : List (α × β) → α → Option β
  | [], _ => none
  | (k, v) :: rest, a => if k = a then some v else lookupA rest a

/-- Python dict assignment `d[k] = v`: replace the first binding or append. -/
def setA {α β : Type} [DecidableEq α] : List (α × β) → α → β → List (α × β)
  | [], a, b => [(a, b)]
  | (k, v) :: rest, a, b =>
    if k = a then (a, b) :: rest else (k, v) :: setA rest a b

/-- Python dict deletion `del d[k]` (no-op when the key is absent). -/
def removeA {α β : Type} [DecidableEq α] : List (α × β) → α → List (α × β)
  | [], _ => []
  | (k, v) :: rest, a =>
    if k = a then removeA rest a else (k, v) :: removeA rest a

/-- Python `d.pop(k)`: the value and the remaining dict, or `none` (KeyError). -/
def popA {α β : Type} [DecidableEq α] (l : List (α × β)) (a : α) :
    Option (β × List (α × β)) :=
  match lookupA l a with
  | none => none
  | some v => some (v, removeA l a)

/-- Backtrader order statuses (spec section 3); `PartialFilled` models the
status the spec and backtrader call `Partial`. -/
inductive OrdStatus : Type
  | Created
  | Submitted
  | Accepted
  | PartialFilled
  | Completed
  | Cancelled
  | Expired
  | Rejected
deriving DecidableEq, Repr

/-- `IBBroker.SUBMITTED` status-string constant. -/
def SUBMITTED : String := "Submitted"

/-- `IBBroker.FILLED` status-string constant. -/
def FILLED : String := "Filled"

/-- `IBBroker.CANCELLED` status-string constant. -/
def CANCELLED : String := "Cancelled"

/-- `IBBroker.INACTIVE` status-string constant. -/
def INACTIVE : String := "Inactive"

/-- `IBBroker.PENDINGSUBMIT` status-string constant. -/
def PENDINGSUBMIT : String := "PendingSubmit"

/-- `IBBroker.PENDINGCANCEL` status-string constant. -/
def PENDINGCANCEL : String := "PendingCancel"

/-- `IBBroker.PRESUBMITTED` status-string constant. -/
def PRESUBMITTED : String := "PreSubmitted"

/-- `IBBroker.APICANCELLED` status-string constant. -/
def APICANCELLED : String := "ApiCancelled"

/-- The values carried by one `order.execute(...)` call (spec section 4.4
step 9). -/
structure ExecutedInfo : Type where
  dt : Nat
  size : ℚ
  price : ℚ
  closed : ℚ
  closedvalue : ℚ
  closedcomm : ℚ
  opened : ℚ
  openedvalue : ℚ
  openedcomm : ℚ
  margin : ℚ
  pnl : ℚ
  psize : ℚ
  pprice : ℚ
deriving DecidableEq, Repr

/-- The observable state of one `IBOrder` (order record): identifier fields,
backtrader status, the `_willexpire` marker, the instrument reference
(`order.data`, as an id), and the last `execute(...)` payload. -/
structure IBOrderT : Type where
  orderId : Nat
  clientId : Nat := 0
  permId : Nat := 0
  status : OrdStatus
  willexpire : Bool := false
  dataId : Nat := 0
  action : String := "BUY"
  executed : Option ExecutedInfo := none
deriving DecidableEq, Repr

/-- An inbound `orderStatus` message: `msg.orderId`, `msg.status`,
`msg.filled`. -/
structure OrderStatusMsg : Type where
  orderId : Nat
  status : String
  filled : ℚ
deriving DecidableEq, Repr

/-- An inbound execution event (`push_execution`): `execId`, `orderId`,
`side`, `shares`, `price`, `cumQty`, free-text `time`. -/
structure Execution : Type where
  execId : String
  orderId : Nat
  side : String
  shares : ℚ
  price : ℚ
  cumQty : ℚ
  time : Option String
deriving DecidableEq, Repr

/-- An inbound commission report: `execId`, `commission`, `realizedPNL`. -/
structure CommissionReport : Type where
  execId : String
  commission : ℚ
  realizedPNL : ℚ
deriving DecidableEq, Repr

/-- An inbound numbered error event; `id` is `none` when the message has no
`id` attribute (the `AttributeError` case). -/
structure ErrorMsg : Type where
  id : Option Nat
  errorCode : Nat
deriving DecidableEq, Repr

/-- An open-order snapshot (`openOrder` callback payload): order identifier,
client identifier, permanent identifier, action and order-state status. -/
structure OpenOrderMsg : Type where
  orderId : Nat
  clientId : Nat
  permId : Nat
  action : String := "BUY"
  orderStateStatus : String := "Submitted"
deriving DecidableEq, Repr

/-- Persisted order metadata returned by `_load_order` (the order store):
`order_id`, `dataname`, `stratname`, `size`, `price`, `pricelimit`. -/
structure StoredOrderData : Type where
  order_id : Nat
  dataname : String
  stratname : String
  size : ℚ := 0
  price : ℚ := 0
  pricelimit : ℚ := 0
deriving DecidableEq, Repr

/-- A position (size and average price) for one instrument. -/
structure Position : Type where
  size : ℚ
  price : ℚ
deriving DecidableEq, Repr

/-- The mutable state of one `IBBroker`: the order table `orderbyid`, the
execution map `executions`, the pending-fill ledger `ordstatus`
(a `defaultdict(dict)`), the notification queue `notifs`, the pending-notify
deque `tonotify`, the `opened_orders` queue (with `none` as the end
sentinel), the positions held by the store collaborator, the per-instrument
close prices (`order.data.close[0]`), the persisted order store
(`_load_order`), the data-name table (`cerebro.getdatabyname`), the printed
error log, and `self.ib.clientId`. -/
structure Broker : Type where
  clientId : Nat := 0
  orderbyid : List (Nat × IBOrderT) := []
  executions : List (String × Execution) := []
  ordstatus : List (Nat × List (ℚ × OrderStatusMsg)) := []
  notifs : List IBOrderT := []
  tonotify : List Nat := []
  opened_orders : List (Option OpenOrderMsg) := []
  positions : List (Nat × Position) := []
  dataClose : List (Nat × ℚ) := []
  orderStore : List (Nat × StoredOrderData) := []
  dataByName : List (String × Nat) := []
  errors : List String := []
deriving DecidableEq, Repr

/-- A broker with every table empty. -/
def emptyBroker : Broker := {}

/-- Modelled from the spec: order transition `accept()` (section 4.1). -/
def orderAccept (o : IBOrderT) : IBOrderT := { o with status := OrdStatus.Accepted }

/-- Modelled from the spec: order transition `cancel()` (section 4.1). -/
def orderCancel (o : IBOrderT) : IBOrderT := { o with status := OrdStatus.Cancelled }

/-- Modelled from the spec: order transition `expire()` (section 4.1). -/
def orderExpire (o : IBOrderT) : IBOrderT := { o with status := OrdStatus.Expired }

/-- Modelled from the spec: order transition `reject()` (section 4.1). -/
def orderReject (o : IBOrderT) : IBOrderT := { o with status := OrdStatus.Rejected }

/-- Modelled from the spec: order transition `partial()` (section 4.1). -/
def orderPartial (o : IBOrderT) : IBOrderT := { o with status := OrdStatus.PartialFilled }

/-- Modelled from the spec: order transition `completed()` (section 4.1). -/
def orderCompleted (o : IBOrderT) : IBOrderT := { o with status := OrdStatus.Completed }

/-- Modelled from the spec: `order.alive()` holds in the non-terminal states
(section 4.3, cancellation note: alive means not in a terminal state). -/
def orderAlive (o : IBOrderT) : Bool :=
  o.status = OrdStatus.Created ∨ o.status = OrdStatus.Submitted ∨
    o.status = OrdStatus.PartialFilled ∨ o.status = OrdStatus.Accepted

/-- Modelled from the spec: `order.execute(...)` records the fill payload on
the order record (section 4.4 step 9). -/
def orderExecute (o : IBOrderT) (dt : Nat)
    (size price closed closedvalue closedcomm opened openedvalue openedcomm
      margin pnl psize pprice : ℚ) : IBOrderT :=
  let e : ExecutedInfo :=
    { dt := dt, size := size, price := price, closed := closed,
      closedvalue := closedvalue, closedcomm := closedcomm,
      opened := opened, openedvalue := openedvalue, openedcomm := openedcomm,
      margin := margin, pnl := pnl, psize := psize, pprice := pprice }
  { o with executed := some e }

/-- `IBCommInfo.getoperationcost` (source lines 250-253):
`abs(float(size)) * float(price)`. -/
def getoperationcost (size price : ℚ) : ℚ := abs size * price

/-- `self.notify(order)`: put a clone of the order on the notification
queue (source lines 424-425); in this value semantics the clone is the
order value itself. -/
def notifyOrd (b : Broker) (o : IBOrderT) : Broker :=
  { b with notifs := b.notifs ++ [o] }

/-- Modelled from the spec: `Position.update(size, price)` returns the new
position together with the opened/closed decomposition of the fill
(section 3, Position; glossary: opened/closed quantity). Concretely: a fill
in the direction of the position opens; a fill against the position closes
up to the held size and opens any crossing remainder. -/
def positionUpdate (p : Position) (size price : ℚ) :
    Position × ℚ × ℚ :=
  let oldsize := p.size
  let newsize := p.size + size
  if newsize = 0 then ({ size := 0, price := 0 }, 0, size)
  else if oldsize = 0 then ({ size := newsize, price := price }, size, 0)
  else if 0 < oldsize then
    if 0 < size then
      ({ size := newsize, price := (p.price * oldsize + size * price) / newsize },
        size, 0)
    else if 0 < newsize then ({ size := newsize, price := p.price }, 0, size)
    else ({ size := newsize, price := price }, newsize, -oldsize)
  else
    if size < 0 then
      ({ size := newsize, price := (p.price * oldsize + size * price) / newsize },
        size, 0)
    else if newsize < 0 then ({ size := newsize, price := p.price }, 0, size)
    else ({ size := newsize, price := price }, newsize, -oldsize)

/-- `self.ordstatus[msg.orderId][msg.filled] = msg` on the
`defaultdict(dict)` pending-fill ledger (source lines 504, 511). -/
def recordStatus (b : Broker) (msg : OrderStatusMsg) : Broker :=
  let ledger := (lookupA b.ordstatus msg.orderId).getD []
  { b with ordstatus := setA b.ordstatus msg.orderId (setA ledger msg.filled msg) }

/-- `IBBroker.push_orderstatus` (source lines 451-513). -/
def push_orderstatus (b : Broker) (msg : OrderStatusMsg) : Broker :=
  match lookupA b.orderbyid msg.orderId with
  | none => b
  | some order =>
    if msg.status = SUBMITTED ∧ msg.filled = 0 then
      if order.status = OrdStatus.Accepted then b
      else
        let order2 := orderAccept order
        notifyOrd { b with orderbyid := setA b.orderbyid msg.orderId order2 } order2
    else if msg.status = CANCELLED ∨ msg.status = APICANCELLED then
      if order.status = OrdStatus.Cancelled ∨ order.status = OrdStatus.Expired then b
      else
        let order2 := if order.willexpire then orderExpire order else orderCancel order
        notifyOrd { b with orderbyid := setA b.orderbyid msg.orderId order2 } order2
    else if msg.status = PENDINGCANCEL then
      -- the source returns early on a duplicate and otherwise does nothing;
      -- both branches leave the state unchanged
      b
    else if msg.status = INACTIVE then
      if order.status = OrdStatus.Rejected then b
      else
        let order2 := orderReject order
        notifyOrd { b with orderbyid := setA b.orderbyid msg.orderId order2 } order2
    else if msg.status = SUBMITTED ∨ msg.status = FILLED then
      recordStatus b msg
    else if msg.status = PENDINGSUBMIT ∨ msg.status = PRESUBMITTED then
      if msg.filled ≠ 0 then recordStatus b msg else b
    else b

/-- `IBBroker.push_ordererror` (source lines 631-651). -/
def push_ordererror (b : Broker) (msg : ErrorMsg) : Broker :=
  match msg.id with
  | none => b
  | some oid =>
    match lookupA b.orderbyid oid with
    | none => b
    | some order =>
      if msg.errorCode = 202 then
        -- the source returns when the order is no longer alive
        if orderAlive order then
          let order2 := orderCancel order
          notifyOrd { b with orderbyid := setA b.orderbyid oid order2 } order2
        else b
      else if msg.errorCode = 201 then
        if order.status = OrdStatus.Rejected then b
        else
          let order2 := orderReject order
          notifyOrd { b with orderbyid := setA b.orderbyid oid order2 } order2
      else
        let order2 := orderReject order
        notifyOrd { b with orderbyid := setA b.orderbyid oid order2 } order2

/-- Numeric value of a list of decimal digit characters. -/
def digitsVal (cs : List Char) : Nat :=
  cs.foldl (fun a c => a * 10 + (c.toNat - 48)) 0

/-- Python `s.split(" ")` on a single-space separator, over the character
list of the string. -/
def splitOnSpace : List Char → List (List Char)
  | [] => [[]]
  | c :: rest =>
    match splitOnSpace rest with
    | [] => [[]]
    | w :: ws => if c = ' ' then [] :: w :: ws else (c :: w) :: ws

/-- `datetime.strptime(s, "%Y%m%d %H:%M:%S")` as a checked parse: succeeds
exactly on `YYYYMMDD HH:MM:SS` with in-range fields (month/day/hour/min/sec
ranges as accepted by CPython, day-in-month refinements elided), returning
the digits as one number (a stand-in for the `date2num` float). -/
def strptimeYmdHMS (cs : List Char) : Option Nat :=
  match cs with
  | [y1, y2, y3, y4, mo1, mo2, d1, d2, sp, h1, h2, c1, mi1, mi2, c2, s1, s2] =>
    if ([y1, y2, y3, y4, mo1, mo2, d1, d2, h1, h2, mi1, mi2, s1, s2].all Char.isDigit
        ∧ sp = ' ' ∧ c1 = ':' ∧ c2 = ':'
        ∧ 1 ≤ digitsVal [mo1, mo2] ∧ digitsVal [mo1, mo2] ≤ 12
        ∧ 1 ≤ digitsVal [d1, d2] ∧ digitsVal [d1, d2] ≤ 31
        ∧ digitsVal [h1, h2] ≤ 23 ∧ digitsVal [mi1, mi2] ≤ 59
        ∧ digitsVal [s1, s2] ≤ 61) then
      some (digitsVal [y1, y2, y3, y4, mo1, mo2, d1, d2, h1, h2, mi1, mi2, s1, s2])
    else none
  | _ => none

/-- The full weekday names matched by strptime's directive for weekdays. -/
def weekdayNames : List (List Char) :=
  ["Monday", "Tuesday", "Wednesday", "Thursday", "Friday", "Saturday",
    "Sunday"].map String.toList

/-- `datetime.strptime(s, "%Y%m%d %H:%M:%S %A")` as a checked parse. -/
def strptimeYmdHMSA (cs : List Char) : Option Nat :=
  match strptimeYmdHMS (cs.take 17) with
  | none => none
  | some v =>
    match cs.drop 17 with
    | ' ' :: w => if weekdayNames.contains w then some v else none
    | _ => none

/-- The execution-timestamp parse of `push_commissionreport` (source lines
591-597): split on spaces; with more than one token drop the trailing token
(the timezone) and parse `"%Y%m%d %H:%M:%S"`, else parse the whole string as
`"%Y%m%d %H:%M:%S %A"`; `none` models the raised
`TypeError`/`ValueError`. -/
def parseExTime (time : Option (List Char)) : Option Nat :=
  let dtArray := match time with
    | none => []
    | some t => splitOnSpace t
  if dtArray.length > 1 then
    strptimeYmdHMS (List.intercalate [' '] dtArray.dropLast)
  else
    match time with
    | none => none
    | some t => strptimeYmdHMSA t

/-- `IBBroker.push_execution` (source lines 555-556). -/
def push_execution (b : Broker) (ex : Execution) : Broker :=
  { b with executions := setA b.executions ex.execId ex }

/-- The `try` block of `IBBroker.push_commissionreport` (source lines
558-618). An `Except.error` models a raised exception and carries the
broker state as mutated up to the raise point; the mutations already
performed (`executions.pop`, the `defaultdict` access on `ordstatus`, the
ledger `pop`, `position.update`) are kept, exactly as in CPython. -/
def pcrBody (b : Broker) (cr : CommissionReport) : Except (String × Broker) Broker :=
  match popA b.executions cr.execId with
  | none => Except.error ("KeyError executions", b)
  | some (ex, exs) =>
    let b1 : Broker := { b with executions := exs }
    match lookupA b1.orderbyid ex.orderId with
    | none => Except.error ("KeyError orderbyid", b1)
    | some order =>
      let oid := ex.orderId
      let ledger := (lookupA b1.ordstatus oid).getD []
      let b2 : Broker := { b1 with ordstatus := setA b1.ordstatus oid ledger }
      match popA ledger ex.cumQty with
      | none => Except.error ("KeyError ordstatus", b2)
      | some (ostatus, ledger2) =>
        let b3 : Broker := { b2 with ordstatus := setA b2.ordstatus oid ledger2 }
        let position := (lookupA b3.positions order.dataId).getD { size := 0, price := 0 }
        let ppriceOrig := position.price
        match ex.side.toList with
        | [] => Except.error ("IndexError side", b3)
        | sideC :: _ =>
          let size : ℚ := if sideC = 'B' then ex.shares else -ex.shares
          let price := ex.price
          let pu := positionUpdate position size price
          let b4 : Broker := { b3 with positions := setA b3.positions order.dataId pu.1 }
          let opened := pu.2.1
          let closed := pu.2.2
          if size = 0 then Except.error ("ZeroDivisionError", b4)
          else
            let comm := cr.commission
            let closedcomm := comm * closed / size
            let openedcomm := comm - closedcomm
            let closedvalue := getoperationcost closed ppriceOrig
            let openedvalue := getoperationcost opened price
            let pnl := if closed = 0 then 0 else cr.realizedPNL
            match parseExTime (ex.time.map String.toList) with
            | none => Except.error ("ValueError strptime", b4)
            | some dtv =>
              let margin := (lookupA b4.dataClose order.dataId).getD 0
              let order2 := orderExecute order dtv size price closed closedvalue
                closedcomm opened openedvalue openedcomm margin pnl
                pu.1.size pu.1.price
              let order3 := if ostatus.status = FILLED then orderCompleted order2
                else orderPartial order2
              let b5 : Broker := { b4 with orderbyid := setA b4.orderbyid oid order3 }
              let b6 : Broker := if ostatus.status = FILLED then
                  { b5 with ordstatus := removeA b5.ordstatus oid }
                else b5
              let b7 : Broker := if oid ∈ b6.tonotify then b6
                else { b6 with tonotify := b6.tonotify ++ [oid] }
              Except.ok b7

/-- `IBBroker.push_commissionreport` (source lines 558-618): the `try` body
wrapped in the `except` clause that logs and keeps the state reached at the
raise point. -/
def push_commissionreport (b : Broker) (cr : CommissionReport) : Broker :=
  match pcrBody b cr with
  | Except.ok b2 => b2
  | Except.error (_, b2) => b2

/-- The drain loop of `IBBroker.push_portupdate` (source lines 625-629):
pop identifiers off `tonotify` and notify the matching orders; a missing
identifier models the uncaught `KeyError`, which escapes after the
identifier has been popped. -/
def drainA (orders : List (Nat × IBOrderT)) :
    List Nat → List IBOrderT → List Nat × List IBOrderT
  | [], acc => ([], acc)
  | oid :: rest, acc =>
    match lookupA orders oid with
    | none => (rest, acc)
    | some o => drainA orders rest (acc ++ [o])

/-- `IBBroker.push_portupdate` (source lines 620-629). -/
def push_portupdate (b : Broker) : Broker :=
  let r := drainA b.orderbyid b.tonotify b.notifs
  { b with tonotify := r.1, notifs := r.2 }

/-- `IBBroker.cancel` (source lines 337-346): the broker state is returned
unchanged; the second component is the order identifier forwarded to
`self.ib.cancelOrder`, when any. -/
def cancel (b : Broker) (order : IBOrderT) : Broker × Option Nat :=
  match lookupA b.orderbyid order.orderId with
  | none => (b, none)
  | some _ =>
    if order.status = OrdStatus.Cancelled then (b, none)
    else (b, some order.orderId)

/-- `IBBroker.push_openorder` (source lines 653-675). -/
def push_openorder (b : Broker) (msg : Option OpenOrderMsg) : Broker :=
  match msg with
  | none => { b with opened_orders := b.opened_orders ++ [none] }
  | some m =>
    if (lookupA b.orderbyid m.orderId).isSome then b
    else { b with opened_orders := b.opened_orders ++ [some m] }

/-- `IBBroker.rebuild_iborder_from_open_order` (source lines 515-553). -/
def rebuild_iborder_from_open_order (b : Broker) (msg : OpenOrderMsg) : Broker :=
  if msg.clientId ≠ b.clientId then b
  else
    match lookupA b.orderStore msg.permId with
    | none => { b with errors := b.errors ++ ["ERROR: Cannot load order data from file"] }
    | some od =>
      if od.order_id ≠ msg.orderId then
        { b with errors := b.errors ++ ["ERROR: order data wrong"] }
      else
        let dataId := (lookupA b.dataByName od.dataname).getD 0
        let order2 : IBOrderT :=
          { orderId := msg.orderId, clientId := msg.clientId,
            permId := msg.permId, status := OrdStatus.Created,
            willexpire := false, dataId := dataId, action := msg.action,
            executed := none }
        notifyOrd { b with orderbyid := setA b.orderbyid msg.orderId order2 } order2

/-! Concrete inputs used by the closed witness and counterexample theorems. -/

/-- A tracked order already in the Cancelled terminal state. -/
def oC1 : IBOrderT := { orderId := 7, status := OrdStatus.Cancelled }

/-- A broker tracking only `oC1`. -/
def bC1 : Broker := { emptyBroker with orderbyid := [(7, oC1)] }

/-- A SUBMITTED status message with zero filled quantity for order 7. -/
def mC1 : OrderStatusMsg := { orderId := 7, status := "Submitted", filled := 0 }

/-- A CANCELLED status message for order 7. -/
def mC1b : OrderStatusMsg := { orderId := 7, status := "Cancelled", filled := 0 }

/-- A 202 (cancel-confirmed) error event for order 7. -/
def eC1 : ErrorMsg := { id := some 7, errorCode := 202 }

/-- An order with a pending execution but no ledger entry. -/
def oC2 : IBOrderT := { orderId := 1, status := OrdStatus.Accepted }

/-- An execution for order 1 at cumulative quantity 1. -/
def exC2 : Execution :=
  { execId := "e1", orderId := 1, side := "BOT", shares := 1, price := 10,
    cumQty := 1, time := some ("20230101 12:30:00 US/Eastern") }

/-- A broker holding `exC2` but with an empty pending-fill ledger. -/
def bC2 : Broker :=
  { emptyBroker with orderbyid := [(1, oC2)], executions := [("e1", exC2)] }

/-- The commission report matching `exC2`. -/
def crC2 : CommissionReport := { execId := "e1", commission := 1, realizedPNL := 0 }

/-- A commission report with no stored execution record anywhere. -/
def crC2b : CommissionReport := { execId := "nope", commission := 1, realizedPNL := 0 }

/-- A tracked order in the Accepted state (not yet cancelled). -/
def oC3 : IBOrderT := { orderId := 1, status := OrdStatus.Accepted }

/-- A broker tracking only `oC3`. -/
def bC3 : Broker := { emptyBroker with orderbyid := [(1, oC3)] }

/-- A first CANCELLED status message for order 1. -/
def mC3a : OrderStatusMsg := { orderId := 1, status := "Cancelled", filled := 0 }

/-- A duplicate ApiCancelled status message for order 1. -/
def mC3b : OrderStatusMsg := { orderId := 1, status := "ApiCancelled", filled := 0 }

/-- A tracked order used by the open-order duplicate witness. -/
def oC9 : IBOrderT := { orderId := 5, status := OrdStatus.Submitted }

/-- A broker already tracking order 5. -/
def bC9 : Broker := { emptyBroker with orderbyid := [(5, oC9)] }

/-- An open-order snapshot for the already-tracked order 5. -/
def mC9 : OpenOrderMsg := { orderId := 5, clientId := 0, permId := 11 }

/-- A tracked Accepted order used by the commission-path witnesses. -/
def oS : IBOrderT := { orderId := 7, status := OrdStatus.Accepted }

/-- A buy execution of 10 shares at 100 for order 7. -/
def exS : Execution :=
  { execId := "e1", orderId := 7, side := "BOT", shares := 10, price := 100,
    cumQty := 10, time := some ("20230101 12:30:00 US/Eastern") }

/-- The FILLED pending-fill ledger entry at cumulative quantity 10. -/
def stS : OrderStatusMsg := { orderId := 7, status := "Filled", filled := 10 }

/-- A SUBMITTED (not FILLED) pending-fill ledger entry at quantity 10. -/
def stP : OrderStatusMsg := { orderId := 7, status := "Submitted", filled := 10 }

/-- The commission report matching `exS`. -/
def crS : CommissionReport := { execId := "e1", commission := 2, realizedPNL := 0 }

/-- A broker ready for a successful FILLED reconciliation of `exS`. -/
def bS : Broker :=
  { emptyBroker with
    orderbyid := [(7, oS)],
    executions := [("e1", exS)],
    ordstatus := [(7, [((10 : ℚ), stS)])] }

/-- Like `bS` but with a SUBMITTED ledger entry (partial fill). -/
def bP : Broker :=
  { emptyBroker with
    orderbyid := [(7, oS)],
    executions := [("e1", exS)],
    ordstatus := [(7, [((10 : ℚ), stP)])] }

/-- `exS` with zero shares: the division-by-zero input. -/
def exZ : Execution := { exS with shares := 0 }

/-- A broker ready to reconcile the zero-share execution `exZ`. -/
def bZ : Broker :=
  { emptyBroker with
    orderbyid := [(7, oS)],
    executions := [("e1", exZ)],
    ordstatus := [(7, [((10 : ℚ), stS)])] }

/-- A broker with order 7 pending on the notify list. -/
def bN : Broker :=
  { emptyBroker with orderbyid := [(7, oS)], tonotify := [7] }

/-- A broker whose own client identifier is 3. -/
def bC10 : Broker := { emptyBroker with clientId := 3 }

/-- An open-order snapshot from a different client (4). -/
def mC10 : OpenOrderMsg := { orderId := 9, clientId := 4, permId := 12 }

/-- An open-order snapshot from the broker's own client with no persisted
metadata in the (empty) order store. -/
def mC10b : OpenOrderMsg := { orderId := 9, clientId := 3, permId := 12 }

/-! Helper lemmas about the dict model and the handlers. -/

/-- Looking up the key just written returns the written value. -/
theorem lookupA_setA_self {α β : Type} [DecidableEq α] (l : List (α × β))
    (k : α) (v : β) : lookupA (setA l k v) k = some v := by
  induction l with
  | nil => simp [setA, lookupA]
  | cons p rest ih =>
    by_cases h : p.1 = k
    · simp [setA, h, lookupA]
    · simp [setA, h, lookupA, ih]

/-- Looking up the key just deleted fails. -/
theorem lookupA_removeA_self {α β : Type} [DecidableEq α] (l : List (α × β))
    (k : α) : lookupA (removeA l k) k = none := by
  induction l with
  | nil => simp [removeA, lookupA]
  | cons p rest ih =>
    by_cases h : p.1 = k
    · simp [removeA, h, ih]
    · simp [removeA, h, lookupA, ih]

/-- A fold over events that all leave the state unchanged is the identity. -/
theorem foldl_fixed {α β : Type} (f : α → β → α) (b : α) (l : List β)
    (h : ∀ x ∈ l, f b x = b) : l.foldl f b = b := by
  induction l with
  | nil => rfl
  | cons x xs ih =>
    rw [List.foldl_cons, h x (by simp)]
    exact ih (fun y hy => h y (by simp [hy]))

/-- Duplicate guard of the CANCELLED/APICANCELLED branch: an order already
Cancelled or Expired is left untouched (source lines 465-468). -/
theorem po_cancel_dup (b : Broker) (o : IBOrderT) (m : OrderStatusMsg)
    (hid : lookupA b.orderbyid m.orderId = some o)
    (hs : m.status = CANCELLED ∨ m.status = APICANCELLED)
    (ho : o.status = OrdStatus.Cancelled ∨ o.status = OrdStatus.Expired) :
    push_orderstatus b m = b := by
  rcases hs with hs | hs <;>
    simp [push_orderstatus, hid, hs, ho, CANCELLED, APICANCELLED, SUBMITTED]

/-- First CANCELLED/APICANCELLED event on an order not yet
Cancelled/Expired: one `expire()`/`cancel()` transition keyed on
`_willexpire` and one notification (source lines 465-477). -/
theorem po_cancel_first (b : Broker) (o : IBOrderT) (m : OrderStatusMsg)
    (hid : lookupA b.orderbyid m.orderId = some o)
    (hs : m.status = CANCELLED ∨ m.status = APICANCELLED)
    (ho : ¬(o.status = OrdStatus.Cancelled ∨ o.status = OrdStatus.Expired)) :
    push_orderstatus b m =
      { b with
          orderbyid := setA b.orderbyid m.orderId
            (if o.willexpire then orderExpire o else orderCancel o),
          notifs := b.notifs ++
            [if o.willexpire then orderExpire o else orderCancel o] } := by
  rcases hs with hs | hs <;>
    simp [push_orderstatus, hid, hs, ho, CANCELLED, APICANCELLED, SUBMITTED,
      notifyOrd]

/-! The claims. -/

/-- C1 (counterexample): terminal states are not absorbing as claimed: a
SUBMITTED status event with zero filled quantity moves a Cancelled order
back to Accepted, because the guard only tests for an already-Accepted
order. -/
theorem terminal_revive_cex :
    (lookupA bC1.orderbyid 7).map IBOrderT.status = some OrdStatus.Cancelled ∧
    (lookupA (push_orderstatus bC1 mC1).orderbyid 7).map IBOrderT.status =
      some OrdStatus.Accepted := by decide

/-- C1 (amended): each terminal status is preserved, but only against the
event kinds its handler guards against: CANCELLED/APICANCELLED events leave
a Cancelled or Expired order unchanged, INACTIVE events leave a Rejected
order unchanged, a 202 error leaves a non-alive order unchanged and a 201
error leaves a Rejected order unchanged; other events may still change a
terminal order's status. -/
theorem terminal_duplicate_guards (b : Broker) (o : IBOrderT) (oid : Nat)
    (m : OrderStatusMsg) (e : ErrorMsg)
    (hid : lookupA b.orderbyid oid = some o) :
    (m.orderId = oid → (m.status = CANCELLED ∨ m.status = APICANCELLED) →
      (o.status = OrdStatus.Cancelled ∨ o.status = OrdStatus.Expired) →
      push_orderstatus b m = b)
    ∧ (m.orderId = oid → m.status = INACTIVE →
      o.status = OrdStatus.Rejected → push_orderstatus b m = b)
    ∧ (e.id = some oid → e.errorCode = 202 → orderAlive o = false →
      push_ordererror b e = b)
    ∧ (e.id = some oid → e.errorCode = 201 → o.status = OrdStatus.Rejected →
      push_ordererror b e = b) := by
  refine ⟨?_, ?_, ?_, ?_⟩
  · intro hmo hs ho
    subst hmo
    exact po_cancel_dup b o m hid hs ho
  · intro hmo hs ho
    subst hmo
    simp [push_orderstatus, hid, hs, ho, INACTIVE, SUBMITTED, CANCELLED,
      APICANCELLED, PENDINGCANCEL]
  · intro hei hec hal
    simp [push_ordererror, hei, hid, hec, hal]
  · intro hei hec ho
    simp [push_ordererror, hei, hid, hec, ho]

/-- C1 (witness): the guards fire on a concrete Cancelled order: a duplicate
CANCELLED status event and a 202 error event both leave the broker
unchanged. -/
theorem terminal_duplicate_guards_witness :
    push_orderstatus bC1 mC1b = bC1 ∧ push_ordererror bC1 eC1 = bC1 :=
  ⟨(terminal_duplicate_guards bC1 oC1 7 mC1b eC1 (by decide)).1 rfl
      (Or.inl rfl) (Or.inl rfl),
    (terminal_duplicate_guards bC1 oC1 7 mC1b eC1 (by decide)).2.2.1 rfl rfl
      (by decide)⟩

/-- C3: for a nonempty sequence of CANCELLED/APICANCELLED events for one
tracked order not already Cancelled/Expired, exactly one transition occurs
(`expire()` when `_willexpire` is set, else `cancel()`) and exactly one
notification is appended; every later event of the sequence is a no-op, so
the final state is the state after the first event. -/
theorem cancel_sequence_exactly_once (b : Broker) (o : IBOrderT)
    (m : OrderStatusMsg) (msgs : List OrderStatusMsg)
    (hid : lookupA b.orderbyid m.orderId = some o)
    (hs : m.status = CANCELLED ∨ m.status = APICANCELLED)
    (ho : ¬(o.status = OrdStatus.Cancelled ∨ o.status = OrdStatus.Expired))
    (hall : ∀ x ∈ msgs,
      (x.status = CANCELLED ∨ x.status = APICANCELLED) ∧ x.orderId = m.orderId) :
    (m :: msgs).foldl push_orderstatus b =
      { b with
          orderbyid := setA b.orderbyid m.orderId
            (if o.willexpire then orderExpire o else orderCancel o),
          notifs := b.notifs ++
            [if o.willexpire then orderExpire o else orderCancel o] } := by
  rw [List.foldl_cons, po_cancel_first b o m hid hs ho]
  apply foldl_fixed
  intro x hx
  apply po_cancel_dup _ (if o.willexpire then orderExpire o else orderCancel o)
  · rw [(hall x hx).2]
    exact lookupA_setA_self b.orderbyid m.orderId _
  · exact (hall x hx).1
  · by_cases hw : o.willexpire <;> simp [hw, orderExpire, orderCancel]

/-- C3 (witness): a CANCELLED then a duplicate ApiCancelled event for a
concrete Accepted order yield exactly one `cancel()` and one
notification. -/
theorem cancel_sequence_exactly_once_witness :
    [mC3a, mC3b].foldl push_orderstatus bC3 =
      { bC3 with
          orderbyid := setA bC3.orderbyid mC3a.orderId
            (if oC3.willexpire then orderExpire oC3 else orderCancel oC3),
          notifs := bC3.notifs ++
            [if oC3.willexpire then orderExpire oC3 else orderCancel oC3] } :=
  cancel_sequence_exactly_once bC3 oC3 mC3a [mC3b] (by decide) (Or.inl rfl)
    (by decide) (by decide)

/-- C8: `cancel` changes no local broker state for any order — tracked,
untracked or already Cancelled — and at most forwards the order's
identifier to the gateway's `cancelOrder`. -/
theorem cancel_is_fire_and_forget (b : Broker) (o : IBOrderT) :
    (cancel b o).1 = b ∧
      ((cancel b o).2 = none ∨ (cancel b o).2 = some o.orderId) := by
  cases h : lookupA b.orderbyid o.orderId with
  | none => simp [cancel, h]
  | some x =>
    by_cases hc : o.status = OrdStatus.Cancelled <;> simp [cancel, h, hc]

/-- C9: an open-order snapshot whose order identifier is already tracked is
ignored entirely: the broker state is returned unchanged. -/
theorem openorder_duplicate_ignored (b : Broker) (m : OpenOrderMsg)
    (h : (lookupA b.orderbyid m.orderId).isSome) :
    push_openorder b (some m) = b := by
  simp [push_openorder, h]

/-- C9 (witness): a snapshot for the already-tracked order 5 is ignored. -/
theorem openorder_duplicate_ignored_witness :
    push_openorder bC9 (some mC9) = bC9 :=
  openorder_duplicate_ignored bC9 mC9 (by decide)

/-- C10: open-order reconstruction silently filters by client identity — a
snapshot from a different client returns with the broker unchanged and no
error reported — while a persistence miss for an own-client snapshot
reports an operator-visible error and changes nothing else. -/
theorem rebuild_client_filter (b : Broker) (m : OpenOrderMsg) :
    (m.clientId ≠ b.clientId → rebuild_iborder_from_open_order b m = b)
    ∧ (m.clientId = b.clientId → lookupA b.orderStore m.permId = none →
      rebuild_iborder_from_open_order b m =
        { b with errors := b.errors ++
            ["ERROR: Cannot load order data from file"] }) := by
  constructor
  · intro h
    simp [rebuild_iborder_from_open_order, h]
  · intro h hl
    simp [rebuild_iborder_from_open_order, h, hl]

/-- C10 (witness): a snapshot from client 4 reaching a client-3 broker is
silently dropped; an own-client snapshot with no persisted metadata adds an
error entry. -/
theorem rebuild_client_filter_witness :
    rebuild_iborder_from_open_order bC10 mC10 = bC10 ∧
    rebuild_iborder_from_open_order bC10 mC10b =
      { bC10 with errors := bC10.errors ++
          ["ERROR: Cannot load order data from file"] } :=
  ⟨(rebuild_client_filter bC10 mC10).1 (by decide),
    (rebuild_client_filter bC10 mC10b).2 rfl rfl⟩

/-- The opened/closed decomposition returned by the position update always
sums back to the incoming signed fill size. -/
theorem positionUpdate_split (p : Position) (size price : ℚ) :
    (positionUpdate p size price).2.1 + (positionUpdate p size price).2.2 = size := by
  simp only [positionUpdate]
  split_ifs <;> ring

/-- Characterization of a fully successful commission reconciliation: with
the execution popped, the order found, the ledger entry popped, a nonempty
side string, nonzero shares and a parsable timestamp, the handler performs
exactly the mutations of source lines 561-616. -/
theorem pcr_success_char (b : Broker) (cr : CommissionReport)
    (ex : Execution) (exs : List (String × Execution)) (order : IBOrderT)
    (ostatus : OrderStatusMsg) (ledger2 : List (ℚ × OrderStatusMsg))
    (c : Char) (cs : List Char) (dtv : Nat)
    (hpop : popA b.executions cr.execId = some (ex, exs))
    (horder : lookupA b.orderbyid ex.orderId = some order)
    (hled : popA ((lookupA b.ordstatus ex.orderId).getD []) ex.cumQty =
      some (ostatus, ledger2))
    (hside : ex.side.toList = c :: cs)
    (hsz : ex.shares ≠ 0)
    (hdt : parseExTime (ex.time.map String.toList) = some dtv) :
    push_commissionreport b cr =
      (let size : ℚ := if c = 'B' then ex.shares else -ex.shares
       let pos0 := (lookupA b.positions order.dataId).getD { size := 0, price := 0 }
       let pu := positionUpdate pos0 size ex.price
       let closedcomm := cr.commission * pu.2.2 / size
       let order2 := orderExecute order dtv size ex.price pu.2.2
         (getoperationcost pu.2.2 pos0.price) closedcomm pu.2.1
         (getoperationcost pu.2.1 ex.price) (cr.commission - closedcomm)
         ((lookupA b.dataClose order.dataId).getD 0)
         (if pu.2.2 = 0 then 0 else cr.realizedPNL) pu.1.size pu.1.price
       let order3 := if ostatus.status = FILLED then orderCompleted order2
         else orderPartial order2
       let os1 := setA (setA b.ordstatus ex.orderId
         ((lookupA b.ordstatus ex.orderId).getD [])) ex.orderId ledger2
       { b with
          executions := exs,
          orderbyid := setA b.orderbyid ex.orderId order3,
          ordstatus := if ostatus.status = FILLED then removeA os1 ex.orderId else os1,
          positions := setA b.positions order.dataId pu.1,
          tonotify := if ex.orderId ∈ b.tonotify then b.tonotify
            else b.tonotify ++ [ex.orderId] }) := by
  have hside2 : ex.side.data = c :: cs := hside
  have hsz2 : (if c = 'B' then ex.shares else -ex.shares) ≠ 0 := by
    by_cases hc : c = 'B' <;> simp [hc, hsz]
  by_cases hf : ostatus.status = FILLED <;>
    by_cases hmem : ex.orderId ∈ b.tonotify <;>
      simp [push_commissionreport, pcrBody, hpop, horder, hled, hside2, hsz2,
        hdt, hf, hmem]

/-- When every pending identifier is tracked, the portfolio-update drain
empties the deque and appends one looked-up order per identifier. -/
theorem drainA_all_found (ob : List (Nat × IBOrderT)) (tn : List Nat)
    (acc : List IBOrderT)
    (h : ∀ oid ∈ tn, (lookupA ob oid).isSome) :
    drainA ob tn acc = ([], acc ++ tn.filterMap (fun oid => lookupA ob oid)) := by
  induction tn generalizing acc with
  | nil => simp [drainA]
  | cons x xs ih =>
    cases hlx : lookupA ob x with
    | none => exact absurd (h x (by simp)) (by simp [hlx])
    | some o =>
      rw [drainA.eq_def]
      simp only [hlx]
      rw [ih (acc ++ [o]) (fun y hy => h y (by simp [hy]))]
      simp [List.filterMap_cons, hlx]

/-- A `filterMap` by a function defined on every element keeps the length. -/
theorem filterMap_all_length (ob : List (Nat × IBOrderT)) (tn : List Nat)
    (h : ∀ oid ∈ tn, (lookupA ob oid).isSome) :
    (tn.filterMap (fun oid => lookupA ob oid)).length = tn.length := by
  induction tn with
  | nil => rfl
  | cons x xs ih =>
    cases hlx : lookupA ob x with
    | none => exact absurd (h x (by simp)) (by simp [hlx])
    | some o =>
      simp [List.filterMap_cons, hlx, ih (fun y hy => h y (by simp [hy]))]

/-- C2 (counterexample): a commission report whose execution exists but
whose (order id, cumulative quantity) key has no pending ledger entry does
mutate state: the execution record is consumed from the execution map, so
the broker is not left unchanged. -/
theorem commission_ledger_miss_mutates_cex :
    popA bC2.executions crC2.execId = some (exC2, []) ∧
    popA ((lookupA bC2.ordstatus 1).getD []) exC2.cumQty = none ∧
    push_commissionreport bC2 crC2 ≠ bC2 ∧
    (push_commissionreport bC2 crC2).executions = [] := by decide

/-- C2 (amended): a commission report whose execution identifier has no
stored execution record leaves the whole broker state unchanged; when the
execution exists but the ledger join fails (order untracked, or no ledger
entry under the quantity key), the event is still dropped without crashing
and the order table, pending-notify list, notification queue and positions
are unchanged, but the execution record has been consumed from the
execution map (and the defaultdict access may add an empty inner ledger). -/
theorem commission_join_failure_frame (b : Broker) (cr : CommissionReport)
    (ex : Execution) (exs : List (String × Execution)) :
    (popA b.executions cr.execId = none → push_commissionreport b cr = b)
    ∧ (popA b.executions cr.execId = some (ex, exs) →
      (lookupA b.orderbyid ex.orderId = none ∨
        popA ((lookupA b.ordstatus ex.orderId).getD []) ex.cumQty = none) →
      (push_commissionreport b cr).orderbyid = b.orderbyid ∧
      (push_commissionreport b cr).tonotify = b.tonotify ∧
      (push_commissionreport b cr).notifs = b.notifs ∧
      (push_commissionreport b cr).positions = b.positions ∧
      (push_commissionreport b cr).executions = exs) := by
  constructor
  · intro h
    simp [push_commissionreport, pcrBody, h]
  · intro h hj
    rcases hj with hj | hj
    · simp [push_commissionreport, pcrBody, h, hj]
    · cases hlo : lookupA b.orderbyid ex.orderId with
      | none => simp [push_commissionreport, pcrBody, h, hlo]
      | some o => simp [push_commissionreport, pcrBody, h, hlo, hj]

/-- C2 (witness): a report with no execution record leaves the empty broker
unchanged; a report with an execution but no ledger entry leaves the
pending-notify list unchanged. -/
theorem commission_join_failure_frame_witness :
    push_commissionreport emptyBroker crC2b = emptyBroker ∧
    (push_commissionreport bC2 crC2).tonotify = bC2.tonotify :=
  ⟨(commission_join_failure_frame emptyBroker crC2b exC2 []).1 (by decide),
    ((commission_join_failure_frame bC2 crC2 exC2 []).2 (by decide)
      (Or.inr (by decide))).2.1⟩

/-- C4: in a successful reconciliation, the commission values stored on the
order by `execute(...)` satisfy the exact split laws: the closed commission
equals the total commission times closed over signed size, the closed and
opened commissions sum back to the total, and the opened/closed
decomposition sums to the signed size. -/
theorem commission_split_exact (b : Broker) (cr : CommissionReport)
    (ex : Execution) (exs : List (String × Execution)) (order : IBOrderT)
    (ostatus : OrderStatusMsg) (ledger2 : List (ℚ × OrderStatusMsg))
    (c : Char) (cs : List Char) (dtv : Nat)
    (hpop : popA b.executions cr.execId = some (ex, exs))
    (horder : lookupA b.orderbyid ex.orderId = some order)
    (hled : popA ((lookupA b.ordstatus ex.orderId).getD []) ex.cumQty =
      some (ostatus, ledger2))
    (hside : ex.side.toList = c :: cs)
    (hsz : ex.shares ≠ 0)
    (hdt : parseExTime (ex.time.map String.toList) = some dtv) :
    ∃ o2, lookupA (push_commissionreport b cr).orderbyid ex.orderId = some o2 ∧
      ∃ ei, o2.executed = some ei ∧
        ei.closedcomm = cr.commission * ei.closed / ei.size ∧
        ei.closedcomm + ei.openedcomm = cr.commission ∧
        ei.opened + ei.closed = ei.size := by
  rw [pcr_success_char b cr ex exs order ostatus ledger2 c cs dtv hpop horder
    hled hside hsz hdt]
  by_cases hf : ostatus.status = FILLED <;>
    simp only [hf, reduceIte] <;>
    exact ⟨_, lookupA_setA_self _ _ _, _, rfl, rfl, by dsimp only; ring,
      positionUpdate_split _ _ _⟩

/-- C4 (witness): the split laws hold for the concrete reconciliation of a
10-share buy with commission 2. -/
theorem commission_split_exact_witness :
    ∃ o2, lookupA (push_commissionreport bS crS).orderbyid 7 = some o2 ∧
      ∃ ei, o2.executed = some ei ∧
        ei.closedcomm = crS.commission * ei.closed / ei.size ∧
        ei.closedcomm + ei.openedcomm = crS.commission ∧
        ei.opened + ei.closed = ei.size :=
  commission_split_exact bS crS exS [] oS stS [] 'B' (String.toList ("OT"))
    20230101123000 (by decide) (by decide) (by decide) (by decide) (by decide)
    (by decide)

/-- C5: the division by zero arising from a zero-share execution is raised
inside the `try` body and caught by the handler: the body yields a
ZeroDivisionError, yet the handler returns normally, sends no notification,
touches no pending-notify entry and leaves the order record unchanged — the
report is dropped without retry. -/
theorem commission_zero_size_caught (b : Broker) (cr : CommissionReport)
    (ex : Execution) (exs : List (String × Execution)) (order : IBOrderT)
    (ostatus : OrderStatusMsg) (ledger2 : List (ℚ × OrderStatusMsg))
    (c : Char) (cs : List Char)
    (hpop : popA b.executions cr.execId = some (ex, exs))
    (horder : lookupA b.orderbyid ex.orderId = some order)
    (hled : popA ((lookupA b.ordstatus ex.orderId).getD []) ex.cumQty =
      some (ostatus, ledger2))
    (hside : ex.side.toList = c :: cs)
    (hzero : ex.shares = 0) :
    (∃ b2, pcrBody b cr = Except.error ("ZeroDivisionError", b2)) ∧
    (push_commissionreport b cr).notifs = b.notifs ∧
    (push_commissionreport b cr).tonotify = b.tonotify ∧
    lookupA (push_commissionreport b cr).orderbyid ex.orderId = some order := by
  have hside2 : ex.side.data = c :: cs := hside
  have hsz : (if c = 'B' then ex.shares else -ex.shares) = 0 := by
    by_cases hc : c = 'B' <;> simp [hc, hzero]
  have hchar : pcrBody b cr = Except.error ("ZeroDivisionError",
      { b with
          executions := exs,
          ordstatus := setA (setA b.ordstatus ex.orderId
            ((lookupA b.ordstatus ex.orderId).getD [])) ex.orderId ledger2,
          positions := setA b.positions order.dataId
            (positionUpdate ((lookupA b.positions order.dataId).getD
              { size := 0, price := 0 })
              (if c = 'B' then ex.shares else -ex.shares) ex.price).1 }) := by
    simp [pcrBody, hpop, horder, hled, hside2, hsz]
  refine ⟨⟨_, hchar⟩, ?_, ?_, ?_⟩ <;>
    simp [push_commissionreport, hchar]
  exact horder

/-- C5 (witness): reconciling the zero-share execution `exZ` raises and
catches a ZeroDivisionError, leaving notifications untouched. -/
theorem commission_zero_size_caught_witness :
    (∃ b2, pcrBody bZ crS = Except.error ("ZeroDivisionError", b2)) ∧
    (push_commissionreport bZ crS).notifs = bZ.notifs ∧
    (push_commissionreport bZ crS).tonotify = bZ.tonotify ∧
    lookupA (push_commissionreport bZ crS).orderbyid 7 = some oS :=
  commission_zero_size_caught bZ crS exZ [] oS stS [] 'B' (String.toList ("OT"))
    (by decide) (by decide) (by decide) (by decide) (by decide)

/-- C6: in a successful reconciliation, a FILLED ledger status completes the
order and removes its whole entry from the outer ledger map, while any
other stored status leaves the order Partial and keeps the remaining
ledger entries. -/
theorem commission_filled_completes (b : Broker) (cr : CommissionReport)
    (ex : Execution) (exs : List (String × Execution)) (order : IBOrderT)
    (ostatus : OrderStatusMsg) (ledger2 : List (ℚ × OrderStatusMsg))
    (c : Char) (cs : List Char) (dtv : Nat)
    (hpop : popA b.executions cr.execId = some (ex, exs))
    (horder : lookupA b.orderbyid ex.orderId = some order)
    (hled : popA ((lookupA b.ordstatus ex.orderId).getD []) ex.cumQty =
      some (ostatus, ledger2))
    (hside : ex.side.toList = c :: cs)
    (hsz : ex.shares ≠ 0)
    (hdt : parseExTime (ex.time.map String.toList) = some dtv) :
    (ostatus.status = FILLED →
      lookupA (push_commissionreport b cr).ordstatus ex.orderId = none ∧
      (lookupA (push_commissionreport b cr).orderbyid ex.orderId).map
        IBOrderT.status = some OrdStatus.Completed)
    ∧ (ostatus.status ≠ FILLED →
      lookupA (push_commissionreport b cr).ordstatus ex.orderId = some ledger2 ∧
      (lookupA (push_commissionreport b cr).orderbyid ex.orderId).map
        IBOrderT.status = some OrdStatus.PartialFilled) := by
  rw [pcr_success_char b cr ex exs order ostatus ledger2 c cs dtv hpop horder
    hled hside hsz hdt]
  constructor <;> intro hf <;>
    simp [hf, lookupA_setA_self, lookupA_removeA_self, orderCompleted,
      orderPartial, orderExecute]

/-- C6 (witness): the FILLED ledger entry completes order 7 and drops its
ledger; the SUBMITTED entry leaves it Partial with an empty inner ledger
kept. -/
theorem commission_filled_completes_witness :
    (lookupA (push_commissionreport bS crS).ordstatus 7 = none ∧
      (lookupA (push_commissionreport bS crS).orderbyid 7).map IBOrderT.status =
        some OrdStatus.Completed) ∧
    (lookupA (push_commissionreport bP crS).ordstatus 7 = some [] ∧
      (lookupA (push_commissionreport bP crS).orderbyid 7).map IBOrderT.status =
        some OrdStatus.PartialFilled) :=
  ⟨(commission_filled_completes bS crS exS [] oS stS [] 'B' (String.toList ("OT"))
      20230101123000 (by decide) (by decide) (by decide) (by decide) (by decide)
      (by decide)).1 rfl,
    (commission_filled_completes bP crS exS [] oS stP [] 'B' (String.toList ("OT"))
      20230101123000 (by decide) (by decide) (by decide) (by decide) (by decide)
      (by decide)).2 (by decide)⟩

/-- C7: fill notification is deferred: a successful reconciliation sends no
notification and appends the order identifier to the pending-notify list
only when absent (preserving freedom from duplicates), while a
portfolio-update tick drains the whole list, emitting exactly one
notification per pending identifier and leaving the list empty. -/
theorem deferred_notification (b bp : Broker) (cr : CommissionReport)
    (ex : Execution) (exs : List (String × Execution)) (order : IBOrderT)
    (ostatus : OrderStatusMsg) (ledger2 : List (ℚ × OrderStatusMsg))
    (c : Char) (cs : List Char) (dtv : Nat) :
    (popA b.executions cr.execId = some (ex, exs) →
      lookupA b.orderbyid ex.orderId = some order →
      popA ((lookupA b.ordstatus ex.orderId).getD []) ex.cumQty =
        some (ostatus, ledger2) →
      ex.side.toList = c :: cs → ex.shares ≠ 0 →
      parseExTime (ex.time.map String.toList) = some dtv →
      (push_commissionreport b cr).notifs = b.notifs ∧
      (push_commissionreport b cr).tonotify =
        (if ex.orderId ∈ b.tonotify then b.tonotify
          else b.tonotify ++ [ex.orderId]) ∧
      (b.tonotify.Nodup → (push_commissionreport b cr).tonotify.Nodup))
    ∧ ((∀ oid ∈ bp.tonotify, (lookupA bp.orderbyid oid).isSome) →
      (push_portupdate bp).tonotify = [] ∧
      (push_portupdate bp).notifs =
        bp.notifs ++ bp.tonotify.filterMap (fun oid => lookupA bp.orderbyid oid) ∧
      (push_portupdate bp).notifs.length =
        bp.notifs.length + bp.tonotify.length) := by
  constructor
  · intro hpop horder hled hside hsz hdt
    rw [pcr_success_char b cr ex exs order ostatus ledger2 c cs dtv hpop horder
      hled hside hsz hdt]
    refine ⟨rfl, rfl, ?_⟩
    intro hnd
    by_cases hmem : ex.orderId ∈ b.tonotify <;>
      simp [hmem, hnd, List.nodup_append]
  · intro h2
    rw [push_portupdate, drainA_all_found bp.orderbyid bp.tonotify bp.notifs h2]
    simp [filterMap_all_length bp.orderbyid bp.tonotify h2]

/-- C7 (witness): the concrete reconciliation enqueues order 7 without
notifying; the portfolio tick then drains the one-element list into one
notification. -/
theorem deferred_notification_witness :
    ((push_commissionreport bS crS).notifs = bS.notifs ∧
      (push_commissionreport bS crS).tonotify =
        (if (7 : Nat) ∈ bS.tonotify then bS.tonotify else bS.tonotify ++ [7]) ∧
      (bS.tonotify.Nodup → (push_commissionreport bS crS).tonotify.Nodup)) ∧
    ((push_portupdate bN).tonotify = [] ∧
      (push_portupdate bN).notifs =
        bN.notifs ++ bN.tonotify.filterMap (fun oid => lookupA bN.orderbyid oid) ∧
      (push_portupdate bN).notifs.length =
        bN.notifs.length + bN.tonotify.length) :=
  ⟨(deferred_notification bS bN crS exS [] oS stS [] 'B' (String.toList ("OT"))
      20230101123000).1 (by decide) (by decide) (by decide) (by decide)
      (by decide) (by decide),
    (deferred_notification bS bN crS exS [] oS stS [] 'B' (String.toList ("OT"))
      20230101123000).2 (by decide)⟩

end IB
